import Mathlib

/-!
Verification of the notifier library's pure core: payload validation and
sanitization (email, SMS, phone numbers), the cron schedule expression
builder, configuration merging, and the outbound record size guard.

Definitions are shallow embeddings of the JavaScript source (`lib/utils.js`
and the notifier entry module).  Field presence is modelled with `Option`,
JavaScript truthiness is modelled explicitly, and the host date facilities
(`Date.now`, `new Date(string)`) are passed in as parameters.
-/

/-- JavaScript values as they occur in notification payloads. -/
inductive JSValue where
  | str (s : String)
  | num (n : Int)
  | bool (b : Bool)
  | null
  | arr (elems : List JSValue)
  | obj (fields : List (String × JSValue))

/-- JavaScript truthiness of a value: empty strings, zero, `false` and `null`
are falsy; arrays and objects are always truthy. -/
def truthy : JSValue → Bool
  | .str s => s != ""
  | .num n => n != 0
  | .bool b => b
  | .null => false
  | .arr _ => true
  | .obj _ => true

/-- Truthiness of a possibly absent field (`undefined` is falsy). -/
def truthyO : Option JSValue → Bool
  | some v => truthy v
  | none => false

/-- Embedding of `isString` from `lib/utils.js` (`typeof value === 'string'`). -/
def isString : JSValue → Bool
  | .str _ => true
  | _ => false

/-- Embedding of `isObject` from `lib/utils.js` (`typeof value === 'object'`):
true for plain objects, arrays and `null`, since `typeof` reports `'object'`
for all three. -/
def isObject : JSValue → Bool
  | .obj _ => true
  | .arr _ => true
  | .null => true
  | _ => false

/-- Embedding of `isArrayOfStrings` from `lib/utils.js`. -/
def isArrayOfStrings : JSValue → Bool
  | .arr l => l.all isString
  | _ => false

/-- Lift of `isString` to a possibly absent field. -/
def isStringO : Option JSValue → Bool
  | some v => isString v
  | none => false

/-- Lift of `isObject` to a possibly absent field (`typeof undefined` is not
`'object'`). -/
def isObjectO : Option JSValue → Bool
  | some v => isObject v
  | none => false

/-- HTML-entity escaping of one character, following the `html-entities`
package's `encode` in its default configuration (mode `specialChars`), which
replaces exactly the five special characters. -/
def encodeChar (c : Char) : String :=
  if c = '&' then "&amp;"
  else if c = '<' then "&lt;"
  else if c = '>' then "&gt;"
  else if c = '"' then "&quot;"
  else if c = Char.ofNat 39 then "&apos;"
  else String.singleton c

/-- Embedding of the `html-entities` `encode` function as used by the source. -/
def encode (s : String) : String :=
  String.join (s.data.map encodeChar)

/-- Embedding of `encodeString` from `lib/utils.js`: encode string values,
leave every other value unchanged. -/
def encodeString (v : JSValue) : JSValue :=
  match v with
  | .str s => .str (encode s)
  | _ => v

/-- Entries of a value in `Object.keys` order: object fields directly, arrays
as index/value pairs (the source's body-sanitizing `reduce` iterates
`Object.keys(email.body)`). -/
def jsEntries : JSValue → List (String × JSValue)
  | .obj fs => fs
  | .arr l => l.enum.map (fun p => (toString p.1, p.2))
  | _ => []

/-- Errors raised by `validateAndSanitizeEmailData`, one constructor per
`throw` site in the source, in source order. -/
inductive EmailErr where
  | destinationRequired
  | fromRequired
  | subjectRequired
  | bodyRequired
  | bodyNotObject
  | bodyNotString
  | paramNotString (field : String)
  | paramNotStringArray (field : String)
deriving DecidableEq

/-- An email payload: every field of the source's `email` object, absent
fields modelled as `none` (`from` is a Lean keyword, hence `from_`). -/
structure Email where
  «to» : Option JSValue := none
  cc : Option JSValue := none
  bcc : Option JSValue := none
  replyTo : Option JSValue := none
  from_ : Option JSValue := none
  subject : Option JSValue := none
  body : Option JSValue := none
  template : Option JSValue := none

/-- The `sanitizedValues.body` computation of `validateAndSanitizeEmailData`:
an object body has each leaf value passed through `encodeString`, a string
body is encoded, anything else is left for the merge to keep unchanged. -/
def sanitizeBody (body : Option JSValue) : Option JSValue :=
  match body with
  | some v =>
    if isObject v then some (.obj ((jsEntries v).map (fun p => (p.1, encodeString p.2))))
    else if isString v then some (encodeString v)
    else some v
  | none => none

/-- One step of the source's `arrayStrings` loop: a truthy string is wrapped
into a one-element array, a truthy value that is neither a string nor an
array of strings raises a `TypeError`, and falsy or absent values pass
through untouched. -/
def coerceRecipient (field : String) (v : Option JSValue) : Except EmailErr (Option JSValue) :=
  match v with
  | none => .ok none
  | some x =>
    if truthy x then
      if isString x then .ok (some (.arr [x]))
      else if isArrayOfStrings x then .ok (some x)
      else .error (.paramNotStringArray field)
    else .ok (some x)

/-- Embedding of `validateAndSanitizeEmailData` from `lib/utils.js`: the
required-field checks, the body/type checks, the `strings` loop, the body
sanitization and the `arrayStrings` loop, in source order, ending with the
`Object.assign({}, email, sanitizedValues)` merge. -/
def validateAndSanitizeEmailData (email : Email) : Except EmailErr Email :=
  if !(truthyO email.«to» || truthyO email.cc || truthyO email.bcc) then
    .error .destinationRequired
  else if !truthyO email.from_ then .error .fromRequired
  else if !truthyO email.subject then .error .subjectRequired
  else if !truthyO email.body then .error .bodyRequired
  else if truthyO email.template && !isObjectO email.body then .error .bodyNotObject
  else if !truthyO email.template && !isStringO email.body then .error .bodyNotString
  else if truthyO email.from_ && !isStringO email.from_ then .error (.paramNotString "from")
  else if truthyO email.subject && !isStringO email.subject then .error (.paramNotString "subject")
  else if truthyO email.template && !isStringO email.template then .error (.paramNotString "template")
  else
    match coerceRecipient "to" email.«to» with
    | .error e => .error e
    | .ok to1 =>
      match coerceRecipient "cc" email.cc with
      | .error e => .error e
      | .ok cc1 =>
        match coerceRecipient "bcc" email.bcc with
        | .error e => .error e
        | .ok bcc1 =>
          match coerceRecipient "replyTo" email.replyTo with
          | .error e => .error e
          | .ok replyTo1 =>
            .ok { email with
                  body := sanitizeBody email.body,
                  «to» := to1, cc := cc1, bcc := bcc1, replyTo := replyTo1 }

/-- Error raised by `sanitizePhone`; carries the name of the originating
parameter, which the source interpolates into the message
`Invalid phone in \x7bparam\x7d param` (with backticks around the name). -/
inductive PhoneErr where
  | invalidPhone (param : String)
deriving DecidableEq

/-- The digits of a string, in order: the result of the source's
`phone.replace(/\D/g, '')`. -/
def digitsOf (phone : String) : String :=
  String.mk (phone.data.filter Char.isDigit)

/-- The test of the source's regular expression `^\+[1-9]\d\x7b1,14\x7d$`: a
leading plus sign, a first digit between 1 and 9, then one to fourteen
further digits, and nothing else. -/
def matchE164 (s : String) : Bool :=
  match s.data with
  | c :: c1 :: rest =>
    c = '+' && ('1' ≤ c1 && c1 ≤ '9') && rest.all Char.isDigit
      && 1 ≤ rest.length && rest.length ≤ 14
  | _ => false

/-- Embedding of `sanitizePhone` from `lib/utils.js`: strip every non-digit
character, prefix a plus sign, and fail naming the originating parameter
unless the result passes the E.164 pattern. -/
def sanitizePhone (phone param : String) : Except PhoneErr String :=
  let phoneNumbers := digitsOf phone
  let sanitizedPhone := "+" ++ phoneNumbers
  if matchE164 sanitizedPhone then .ok sanitizedPhone
  else .error (.invalidPhone param)

/-- Errors raised by `validateAndSanitizeSMSData`, one constructor per
`throw` site (phone failures keep the parameter name from `sanitizePhone`). -/
inductive SMSErr where
  | messageRequired
  | messageNotString
  | recipientRequired
  | invalidPhone (param : String)
deriving DecidableEq

/-- An SMS payload.  `message` is an arbitrary value (the source type-checks
it); `to` and `phone` are modelled as optional strings since the source
immediately calls string methods on them via `sanitizePhone`. -/
structure SMS where
  message : Option JSValue := none
  «to» : Option String := none
  phone : Option String := none

/-- Truthiness of an optional string field (absent or empty is falsy). -/
def truthyS : Option String → Bool
  | some s => s != ""
  | none => false

/-- Embedding of `validateAndSanitizeSMSData` from `lib/utils.js`: require a
truthy string `message` and a truthy recipient, trim the message, then
normalize `to` and afterwards `phone` through `sanitizePhone` — the `phone`
result overwrites the `to` result, matching the source's two assignments to
`sanitizedValues.phone`, and the final merge keeps the original value for
any key the loop never wrote. -/
def validateAndSanitizeSMSData (sms : SMS) : Except SMSErr SMS :=
  if !truthyO sms.message then .error .messageRequired
  else if !isStringO sms.message then .error .messageNotString
  else if !(truthyS sms.phone || truthyS sms.«to») then .error .recipientRequired
  else
    let msg := match sms.message with
      | some (.str s) => s
      | _ => ""
    let toRes : Except SMSErr (Option String) :=
      if truthyS sms.«to» then
        match sanitizePhone (sms.«to».getD "") "to" with
        | .ok p => .ok (some p)
        | .error (.invalidPhone f) => .error (.invalidPhone f)
      else .ok none
    match toRes with
    | .error e => .error e
    | .ok toPhone =>
      let phoneRes : Except SMSErr (Option String) :=
        if truthyS sms.phone then
          match sanitizePhone (sms.phone.getD "") "phone" with
          | .ok p => .ok (some p)
          | .error (.invalidPhone f) => .error (.invalidPhone f)
        else .ok none
      match phoneRes with
      | .error e => .error e
      | .ok phPhone =>
        .ok { sms with
              message := some (.str msg.trim),
              phone := match phPhone with
                | some p => some p
                | none => match toPhone with
                  | some t => some t
                  | none => sms.phone }

/-- Days-since-epoch to proleptic Gregorian civil date `(year, month, day)`,
month in 1..12, the calendar computation behind JavaScript's
`getUTCFullYear`, `getUTCMonth` and `getUTCDate`. -/
def civilFromDays (z : Int) : Int × Int × Int :=
  let z1 := z + 719468
  let era := Int.fdiv z1 146097
  let doe := z1 - era * 146097
  let yoe := (doe - doe / 1460 + doe / 36524 - doe / 146096) / 365
  let y := yoe + era * 400
  let doy := doe - (365 * yoe + yoe / 4 - yoe / 100)
  let mp := (5 * doy + 2) / 153
  let d := doy - (153 * mp + 2) / 5 + 1
  let m := mp + (if mp < 3 then 3 else -9)
  (y + (if m ≤ 2 then 1 else 0), m, d)

/-- Milliseconds in a UTC day. -/
def msPerDay : Int := 86400000

/-- Millisecond-of-day of an epoch timestamp (floor semantics, as in
JavaScript `Date`). -/
def msOfDay (t : Int) : Int := Int.emod t msPerDay

/-- JavaScript `date.getUTCMinutes()` of an epoch-millisecond timestamp. -/
def getUTCMinutes (t : Int) : Int := (msOfDay t % 3600000) / 60000

/-- JavaScript `date.getUTCHours()` of an epoch-millisecond timestamp. -/
def getUTCHours (t : Int) : Int := msOfDay t / 3600000

/-- JavaScript `date.getUTCDate()` (day of month) of a timestamp. -/
def getUTCDate (t : Int) : Int := (civilFromDays (Int.fdiv t msPerDay)).2.2

/-- JavaScript `date.getUTCMonth() + 1` (month 1..12) of a timestamp, the
value the source puts into the cron expression. -/
def getUTCMonth1 (t : Int) : Int := (civilFromDays (Int.fdiv t msPerDay)).2.1

/-- JavaScript `date.getUTCFullYear()` of a timestamp. -/
def getUTCFullYear (t : Int) : Int := (civilFromDays (Int.fdiv t msPerDay)).1

/-- The source's template literal
`cron($\x7bminute\x7d $\x7bhour\x7d $\x7bdayOfMonth\x7d $\x7bmonth\x7d $\x7bdayOfWeek\x7d $\x7byear\x7d)`. -/
def cronExpr (m h dom mo dow y : String) : String :=
  "cron(" ++ m ++ " " ++ h ++ " " ++ dom ++ " " ++ mo ++ " " ++ dow ++ " " ++ y ++ ")"

/-- The expression built in the default `only once` branch, whose fields are
the UTC calendar fields of the target instant and whose day-of-week is `?`. -/
def onceExpression (t : Int) : String :=
  cronExpr (toString (getUTCMinutes t)) (toString (getUTCHours t))
    (toString (getUTCDate t)) (toString (getUTCMonth1 t)) "?"
    (toString (getUTCFullYear t))

/-- Errors raised by `cronBuilder`: the day/weekday conflict and the invalid
`end` date format. -/
inductive CronErr where
  | conflict
  | endFormat
deriving DecidableEq

/-- A schedule input: the fields `cronBuilder` reads.  The six temporal
fields, `end` and the cron tokens are strings as in the documented API;
`workingDays` and a pre-existing `once` flag are booleans (the source only
ever uses their truthiness / passes them through). `end` is a Lean keyword,
hence `end_`. -/
structure Schedule where
  minute : Option String := none
  hour : Option String := none
  day : Option String := none
  month : Option String := none
  weekDay : Option String := none
  year : Option String := none
  workingDays : Bool := false
  end_ : Option String := none
  once : Bool := false
  expression : Option String := none
deriving DecidableEq

/-- The value stored in `schedule.end` after `cronBuilder`: a truthy `end`
string is replaced by its epoch-millisecond parse, a falsy one is left as the
original string. -/
inductive EndVal where
  | raw (s : String)
  | ms (t : Int)
deriving DecidableEq

/-- The schedule object as it stands after `cronBuilder` returns: the same
object with `end` normalized, `once` possibly set, and `expression` set. -/
structure ScheduleOut where
  minute : Option String
  hour : Option String
  day : Option String
  month : Option String
  weekDay : Option String
  year : Option String
  workingDays : Bool
  end_ : Option EndVal
  once : Bool
  expression : String
deriving DecidableEq

/-- The `end` normalization step of `cronBuilder`: a truthy `end` is parsed
with the host date parser (`new Date(end)`), failing with the format error
when unparseable; a falsy `end` is not touched. -/
def normalizeEnd (parseDate : String → Option Int) (e : Option String) :
    Except CronErr (Option EndVal) :=
  match e with
  | none => .ok none
  | some s =>
    if s != "" then
      match parseDate s with
      | none => .error .endFormat
      | some t => .ok (some (.ms t))
    else .ok (some (.raw s))

/-- The source's test guarding the default `only once` branch:
`!minute && !hour && !day && !month && !weekDay && !year`. -/
def noTemporalFieldSet (s : Schedule) : Bool :=
  !truthyS s.minute && !truthyS s.hour && !truthyS s.day
    && !truthyS s.month && !truthyS s.weekDay && !truthyS s.year

/-- JavaScript `a || b` on an optional string against a default. -/
def orDefault (o : Option String) (d : String) : String :=
  match o with
  | some s => if s != "" then s else d
  | none => d

/-- The default `only once` branch of `cronBuilder`: cron fields are the UTC
calendar fields of `now + delay` seconds, day-of-week is `?`, and
`schedule.once` is assigned `true`. -/
def onceSchedule (s : Schedule) (endv : Option EndVal) (t : Int) : ScheduleOut :=
  { minute := s.minute, hour := s.hour, day := s.day, month := s.month,
    weekDay := s.weekDay, year := s.year, workingDays := s.workingDays,
    end_ := endv, once := true, expression := onceExpression t }

/-- The explicit branch of `cronBuilder`: field-level defaults, with
`dayOfMonth = day || ((weekDay || workingDays) ? '?' : '*')` and
`dayOfWeek = weekDay || (workingDays ? 'MON-FRI' : (dayOfMonth !== '?' ? '?' : '*'))`. -/
def explicitSchedule (s : Schedule) (endv : Option EndVal) : ScheduleOut :=
  let dayOfMonth := orDefault s.day
    (if truthyS s.weekDay || s.workingDays then "?" else "*")
  { minute := s.minute, hour := s.hour, day := s.day, month := s.month,
    weekDay := s.weekDay, year := s.year, workingDays := s.workingDays,
    end_ := endv, once := s.once,
    expression := cronExpr (orDefault s.minute "0") (orDefault s.hour "11")
      dayOfMonth (orDefault s.month "*")
      (orDefault s.weekDay
        (if s.workingDays then "MON-FRI"
         else if dayOfMonth != "?" then "?" else "*"))
      (orDefault s.year "*") }

/-- Embedding of `cronBuilder` from `lib/utils.js`.  `parseDate` is the host
`new Date(string)` parser (returning epoch milliseconds on success) and `now`
is `Date.now()`.  The day/weekday conflict is checked first, then `end` is
normalized, then either the default `only once` schedule or the explicit
schedule is built.  The source assigns `end`, `once` and `expression` on the
argument object itself and returns that same object, so the returned
`ScheduleOut` is also the post-call value of the caller's schedule object. -/
def cronBuilder (parseDate : String → Option Int) (now : Int) (schedule : Schedule)
    (delay : Int) : Except CronErr ScheduleOut :=
  if truthyS schedule.day && (truthyS schedule.weekDay || schedule.workingDays) then
    .error .conflict
  else
    match normalizeEnd parseDate schedule.end_ with
    | .error e => .error e
    | .ok endv =>
      if noTemporalFieldSet schedule then
        .ok (onceSchedule schedule endv (now + delay * 1000))
      else
        .ok (explicitSchedule schedule endv)

/-- The notifier's static configuration (`api`, `app`, `templateBucket`),
each possibly unset. -/
structure NotifierConfig where
  api : Option String := none
  app : Option String := none
  templateBucket : Option String := none
deriving DecidableEq

/-- The notifier instance state: the configuration plus the `delay` used for
default one-shot schedules (initially `120`). -/
structure NotifierState where
  config : NotifierConfig
  delay : Int
deriving DecidableEq

/-- A fresh `Notifier()`: configuration from the environment, delay `120`. -/
def initNotifier (env : NotifierConfig) : NotifierState :=
  { config := env, delay := 120 }

/-- The argument of `configure`: each option possibly absent; `delay` is a
number. -/
structure ConfigureInput where
  api : Option String := none
  app : Option String := none
  templateBucket : Option String := none
  delay : Option Int := none

/-- JavaScript `incoming || current` on optional string settings: a truthy
incoming value wins, otherwise the current one is kept. -/
def mergeSetting (incoming current : Option String) : Option String :=
  if truthyS incoming then incoming else current

/-- Embedding of `configure` from the notifier module: each of `api`, `app`
and `templateBucket` is merged with `incoming || current`, and the delay is
`!config.delay ? this.delay : config.delay > 120 ? config.delay : 120` —
a falsy delay (absent or zero) keeps the current delay, a value above `120`
is kept, and any other truthy value becomes `120`. -/
def configure (st : NotifierState) (c : ConfigureInput) : NotifierState :=
  { config :=
      { api := mergeSetting c.api st.config.api,
        app := mergeSetting c.app st.config.app,
        templateBucket := mergeSetting c.templateBucket st.config.templateBucket },
    delay :=
      match c.delay with
      | none => st.delay
      | some v => if v == 0 then st.delay else if v > 120 then v else 120 }

/-- The caller-visible part of a notification `data` object that the
`create`, `update` and `remove` methods assign to. -/
structure NotificationData where
  id : Option String := none
  operation : Option String := none
deriving DecidableEq

/-- Post-state of the caller's `data` object after `create` runs its first
statement: the source's `data.operation = 'CREATE'` assigns in place on the
argument object before forwarding it, so after the call the caller's object
carries the operation. -/
def createDataPost (data : NotificationData) : NotificationData :=
  { data with operation := some "CREATE" }

/-- Errors raised by `_send` before the network call: the size-limit error,
which reports the actual serialized length. -/
inductive SendErr where
  | sizeLimit (size : Nat)
deriving DecidableEq

/-- The size guard of `_send`: the record is serialized with
`JSON.stringify` (a host function, so the guard is modelled on the resulting
string), and a serialized form longer than `256000` is rejected with an
error reporting the actual length (`stringData.length`); anything at or
below the bound passes through to the transport. -/
def sendSizeGuard (stringData : String) : Except SendErr String :=
  if stringData.length > 256000 then .error (.sizeLimit stringData.length)
  else .ok stringData

/-- C1: for every schedule input whose `day` is set (truthy) together with a
set `weekDay` or `workingDays`, `cronBuilder` fails with the conflict error.
The statement quantifies over the host date parser and over arbitrary `end`
contents, so the conflict error is raised even when the `end` field would
fail to parse or the remaining fields would take any other branch: the
conflict check precedes all other processing of the schedule. -/
theorem cronBuilder_day_weekday_conflict (s : Schedule)
    (hday : truthyS s.day = true)
    (hwk : truthyS s.weekDay = true ∨ s.workingDays = true) :
    ∀ (parseDate : String → Option Int) (now delay : Int),
      cronBuilder parseDate now s delay = .error .conflict := by
  intro pd now delay
  unfold cronBuilder
  rcases hwk with h | h <;> simp [hday, h]

/-- Witness for C1 at a concrete conflicting schedule. -/
theorem cronBuilder_day_weekday_conflict_witness :
    cronBuilder (fun _ => none) 0 { day := some "1", weekDay := some "MON" } 120
      = .error .conflict :=
  cronBuilder_day_weekday_conflict _ (by decide) (Or.inl (by decide)) _ _ _

/-- C2: for every schedule input with none of the six temporal fields set
(and whose `end`, when supplied, parses — an unparseable `end` fails earlier
with the format error), `cronBuilder` succeeds with `once = true` and an
expression whose minute/hour/day-of-month/month/year fields are the UTC
calendar fields of the instant `now + delay` seconds and whose day-of-week
is `?`. -/
theorem cronBuilder_default_once (pd : String → Option Int) (now delay : Int)
    (s : Schedule) (hnone : noTemporalFieldSet s = true)
    (hend : (normalizeEnd pd s.end_).isOk = true) :
    (cronBuilder pd now s delay).map (fun o => (o.once, o.expression))
      = .ok (true,
          cronExpr (toString (getUTCMinutes (now + delay * 1000)))
            (toString (getUTCHours (now + delay * 1000)))
            (toString (getUTCDate (now + delay * 1000)))
            (toString (getUTCMonth1 (now + delay * 1000))) "?"
            (toString (getUTCFullYear (now + delay * 1000)))) := by
  have hday : truthyS s.day = false := by
    revert hnone; unfold noTemporalFieldSet
    cases truthyS s.day <;> simp
  obtain ⟨endv, hend⟩ : ∃ endv, normalizeEnd pd s.end_ = .ok endv := by
    revert hend; cases normalizeEnd pd s.end_ <;> simp [Except.isOk, Except.toBool]
  unfold cronBuilder
  simp [hday, hend, hnone, onceSchedule, onceExpression, Except.map]

/-- Witness for C2: the empty schedule at `now = 0`, `delay = 120` fires once
at 1970-01-01 00:02:00 UTC. -/
theorem cronBuilder_default_once_witness :
    (cronBuilder (fun _ => none) 0 ({} : Schedule) 120).map
        (fun o => (o.once, o.expression))
      = .ok (true, cronExpr "2" "0" "1" "1" "?" "1970") := by
  have h := cronBuilder_default_once (fun _ => none) 0 120 {} (by decide) (by decide)
  rw [h]
  rfl

/-- C3: the round-trip example — `cronBuilder` on `{day: '16', hour: '22'}`
with delay `120` yields the expression `cron(0 22 16 * ? *)`, for any host
parser and current time (neither is consulted on this input). -/
theorem cronBuilder_day16_hour22 :
    ∀ (parseDate : String → Option Int) (now : Int),
      (cronBuilder parseDate now { day := some "16", hour := some "22" } 120).map
        (fun o => o.expression) = .ok "cron(0 22 16 * ? *)" := by
  intro pd now
  rfl

/-- C4 counterexample: the schedule `{day: '25', once: true}` has a temporal
field supplied, yet `cronBuilder` returns it with `once` still `true` — the
source never clears a caller-supplied `once` flag, it only sets it in the
default branch — so `once` in the output is not equivalent to "no temporal
field was supplied". -/
theorem cronBuilder_once_passthrough :
    (cronBuilder (fun _ => none) 0 { day := some "25", once := true } 120).map
        (fun o => o.once) = .ok true
    ∧ noTemporalFieldSet { day := some "25", once := true } = false := by
  exact ⟨rfl, rfl⟩

/-- C4 amended: on success, the output's `once` flag is true exactly when no
temporal field was set in the input or the input's own `once` flag was
already true. -/
theorem cronBuilder_once_iff (pd : String → Option Int) (now delay : Int)
    (s : Schedule) (out : ScheduleOut)
    (h : cronBuilder pd now s delay = .ok out) :
    out.once = true ↔ (noTemporalFieldSet s = true ∨ s.once = true) := by
  unfold cronBuilder at h
  split at h
  · exact absurd h (by simp)
  · split at h
    · exact absurd h (by simp)
    · split at h
      · cases h
        simp_all [onceSchedule]
      · cases h
        simp_all [explicitSchedule]

/-- Witness for C4 amended at the empty schedule. -/
theorem cronBuilder_once_iff_witness :
    (onceSchedule {} none (0 + 120 * 1000)).once = true
      ↔ (noTemporalFieldSet {} = true ∨ ({} : Schedule).once = true) :=
  cronBuilder_once_iff (fun _ => none) 0 120 {} _ rfl

/-- C9 counterexample: the stages are not free of mutation.  `cronBuilder`
assigns `end`, `once` and `expression` on the argument object itself and
returns that same object (`schedule.expression = ...; return schedule`), so
after the call the caller's schedule — here `{day:'16', hour:'22'}`, whose
`expression` was absent — carries the cron string; likewise `create` begins
with `data.operation = 'CREATE'` on the caller's data object. -/
theorem cronBuilder_and_create_mutate :
    (cronBuilder (fun _ => none) 0 { day := some "16", hour := some "22" } 120).map
        (fun o => some o.expression)
      ≠ .ok (Schedule.expression { day := some "16", hour := some "22" })
    ∧ createDataPost {} ≠ ({} : NotificationData) := by
  constructor
  · intro h
    rw [show (cronBuilder (fun _ => none) 0
          { day := some "16", hour := some "22" } 120).map (fun o => some o.expression)
        = .ok (some "cron(0 22 16 * ? *)") from rfl] at h
    simp at h
  · intro h
    exact absurd h (by decide)

/-- C9 amended: the operations update their argument in place rather than
leaving it untouched, but the mutation is limited to the documented output
fields: on success `cronBuilder` preserves every input field other than
`end`, `once` and `expression`, and `create` writes only `operation` on the
caller's data, preserving `id`. -/
theorem cronBuilder_frame (pd : String → Option Int) (now delay : Int)
    (s : Schedule) (out : ScheduleOut)
    (h : cronBuilder pd now s delay = .ok out) :
    out.minute = s.minute ∧ out.hour = s.hour ∧ out.day = s.day
      ∧ out.month = s.month ∧ out.weekDay = s.weekDay ∧ out.year = s.year
      ∧ out.workingDays = s.workingDays
      ∧ ∀ d : NotificationData,
          (createDataPost d).id = d.id
            ∧ (createDataPost d).operation = some "CREATE" := by
  unfold cronBuilder at h
  split at h
  · exact absurd h (by simp)
  · split at h
    · exact absurd h (by simp)
    · split at h
      · cases h
        simp [onceSchedule, createDataPost]
      · cases h
        simp [explicitSchedule, createDataPost]

/-- Witness for C9 amended at the round-trip schedule. -/
theorem cronBuilder_frame_witness :
    (explicitSchedule { day := some "16", hour := some "22" } none).minute
        = Schedule.minute { day := some "16", hour := some "22" }
    ∧ (explicitSchedule { day := some "16", hour := some "22" } none).hour
        = Schedule.hour { day := some "16", hour := some "22" }
    ∧ (explicitSchedule { day := some "16", hour := some "22" } none).day
        = Schedule.day { day := some "16", hour := some "22" }
    ∧ (explicitSchedule { day := some "16", hour := some "22" } none).month
        = Schedule.month { day := some "16", hour := some "22" }
    ∧ (explicitSchedule { day := some "16", hour := some "22" } none).weekDay
        = Schedule.weekDay { day := some "16", hour := some "22" }
    ∧ (explicitSchedule { day := some "16", hour := some "22" } none).year
        = Schedule.year { day := some "16", hour := some "22" }
    ∧ (explicitSchedule { day := some "16", hour := some "22" } none).workingDays
        = Schedule.workingDays { day := some "16", hour := some "22" }
    ∧ ∀ d : NotificationData,
        (createDataPost d).id = d.id
          ∧ (createDataPost d).operation = some "CREATE" :=
  cronBuilder_frame (fun _ => none) 0 120 { day := some "16", hour := some "22" } _ rfl

/-- C5 counterexample: stripping the non-digits of `55 (48) 99875-4321`
leaves the thirteen digits `5548998754321`, so `sanitizePhone` returns
`+5548998754321` — not the twelve-digit `+554899875321` the claim states
(the claim's expected value drops a digit). -/
theorem sanitizePhone_example_value :
    sanitizePhone "55 (48) 99875-4321" "to" = .ok "+5548998754321"
    ∧ sanitizePhone "55 (48) 99875-4321" "to" ≠ .ok "+554899875321" := by
  refine ⟨rfl, fun h => ?_⟩
  rw [show sanitizePhone "55 (48) 99875-4321" "to" = .ok "+5548998754321" from rfl] at h
  injection h with h1
  exact absurd h1 (by decide)

/-- C5 amended: `sanitizePhone` strips every non-digit character, prefixes a
plus sign, succeeds with exactly that string when it matches the E.164
pattern, and otherwise fails with an error naming the originating field; the
worked example yields `+5548998754321`. -/
theorem sanitizePhone_spec (p f : String) :
    (∀ s, sanitizePhone p f = .ok s → s = "+" ++ digitsOf p)
    ∧ (matchE164 ("+" ++ digitsOf p) = true →
        sanitizePhone p f = .ok ("+" ++ digitsOf p))
    ∧ (matchE164 ("+" ++ digitsOf p) = false →
        sanitizePhone p f = .error (.invalidPhone f))
    ∧ sanitizePhone "55 (48) 99875-4321" "to" = .ok "+5548998754321" := by
  have hdef : sanitizePhone p f
      = (if matchE164 ("+" ++ digitsOf p) then .ok ("+" ++ digitsOf p)
         else .error (.invalidPhone f)) := rfl
  refine ⟨fun s hs => ?_, fun hm => ?_, fun hm => ?_, rfl⟩
  · rw [hdef] at hs
    by_cases hm : matchE164 ("+" ++ digitsOf p) = true
    · rw [if_pos hm] at hs
      injection hs with h1
      exact h1.symm
    · rw [if_neg hm] at hs
      exact absurd hs (by simp)
  · rw [hdef, if_pos hm]
  · rw [hdef, if_neg (by simp [hm])]

/-- Witness for C5 amended: a phone whose digits reduce to `0` fails, naming
the `to` field. -/
theorem sanitizePhone_spec_witness :
    sanitizePhone "0" "to" = .error (.invalidPhone "to") :=
  (sanitizePhone_spec "0" "to").2.2.1 (by decide)

/-- C6: the size guard fails with a size-limit error reporting the actual
serialized length exactly when the serialized record exceeds 256,000, and
passes anything at or below the bound through unchanged. -/
theorem sendSizeGuard_spec (s : String) :
    (s.length > 256000 → sendSizeGuard s = .error (.sizeLimit s.length))
    ∧ (s.length ≤ 256000 → sendSizeGuard s = .ok s) := by
  refine ⟨fun h => ?_, fun h => ?_⟩
  · unfold sendSizeGuard
    rw [if_pos h]
  · unfold sendSizeGuard
    rw [if_neg (by omega)]

/-- Witness for C6: a 256,001-character serialization fails reporting its
size, a 256,000-character one succeeds. -/
theorem sendSizeGuard_spec_witness :
    sendSizeGuard (String.mk (List.replicate 256001 'a'))
        = .error (.sizeLimit (String.mk (List.replicate 256001 'a')).length)
    ∧ sendSizeGuard (String.mk (List.replicate 256000 'a'))
        = .ok (String.mk (List.replicate 256000 'a')) := by
  have h1 : (String.mk (List.replicate 256001 'a')).length = 256001 := by
    rw [String.length]
    exact List.length_replicate 256001 'a'
  have h2 : (String.mk (List.replicate 256000 'a')).length = 256000 := by
    rw [String.length]
    exact List.length_replicate 256000 'a'
  exact ⟨(sendSizeGuard_spec _).1 (by rw [h1]; omega),
    (sendSizeGuard_spec _).2 (by rw [h2])⟩

/-- C8 counterexample: after `configure(\x7bdelay: 300\x7d)` a further call
supplying `delay: 0` — a value below 120 — leaves the effective delay at
300 rather than clamping it to 120: the source treats a falsy supplied delay
as absent, and an absent delay keeps the current value, not the default. -/
theorem configure_delay_zero_not_clamped :
    (configure (configure (initNotifier
        { api := some "a", app := some "b", templateBucket := some "c" })
        { delay := some 300 })
      { delay := some 0 }).delay = 300
    ∧ (configure (configure (initNotifier
        { api := some "a", app := some "b", templateBucket := some "c" })
        { delay := some 300 })
      { delay := some 0 }).delay ≠ 120 := by
  exact ⟨rfl, by decide⟩

/-- C8 amended: the effective delay starts at 120 and every configure call
keeps it at least 120; a supplied nonzero delay of at most 120 is clamped to
120, a supplied delay above 120 is kept, and an absent or zero (falsy)
delay leaves the current delay — initially the default 120 — unchanged. -/
theorem configure_delay_spec (st : NotifierState) (c : ConfigureInput)
    (env : NotifierConfig) (v : Int) :
    ((initNotifier env).delay = 120)
    ∧ (st.delay ≥ 120 → (configure st c).delay ≥ 120)
    ∧ (c.delay = some v → v ≠ 0 → v ≤ 120 → (configure st c).delay = 120)
    ∧ (c.delay = some v → v > 120 → (configure st c).delay = v)
    ∧ (c.delay = none → (configure st c).delay = st.delay)
    ∧ (c.delay = some 0 → (configure st c).delay = st.delay) := by
  have hdef : (configure st c).delay
      = (match c.delay with
         | none => st.delay
         | some w => if w == 0 then st.delay else if w > 120 then w else 120) := rfl
  refine ⟨rfl, fun h => ?_, fun hd h0 hle => ?_, fun hd hgt => ?_,
    fun hd => ?_, fun hd => ?_⟩
  · rw [hdef]
    rcases c.delay with _ | w
    · exact h
    · simp only [beq_iff_eq]
      split
      · exact h
      · split <;> omega
  · rw [hdef, hd]
    simp only [beq_iff_eq]
    rw [if_neg h0, if_neg (by omega)]
  · rw [hdef, hd]
    simp only [beq_iff_eq]
    rw [if_neg (by omega), if_pos hgt]
  · rw [hdef, hd]
  · rw [hdef, hd]
    simp

/-- Witness for C8 amended: a fresh notifier configured with delay 50 ends
up with delay 120. -/
theorem configure_delay_spec_witness :
    (configure (initNotifier
        { api := some "a", app := some "b", templateBucket := some "c" })
      { delay := some 50 }).delay = 120 :=
  (configure_delay_spec (initNotifier
      { api := some "a", app := some "b", templateBucket := some "c" })
    { delay := some 50 }
    { api := some "a", app := some "b", templateBucket := some "c" } 50).2.2.1
    rfl (by decide) (by decide)

/-- C10: required-field presence is decided by JavaScript truthiness, so an
empty string counts as absent.  With the earlier checks satisfied, an empty
`from`, `subject` or `body` string raises the corresponding required error
(not a type error), and an empty SMS `message` string raises the
message-required error unconditionally. -/
theorem emptyString_counts_as_absent :
    (∀ e : Email, (truthyO e.«to» || truthyO e.cc || truthyO e.bcc) = true →
        e.from_ = some (.str "") →
        validateAndSanitizeEmailData e = .error .fromRequired)
    ∧ (∀ e : Email, (truthyO e.«to» || truthyO e.cc || truthyO e.bcc) = true →
        truthyO e.from_ = true → e.subject = some (.str "") →
        validateAndSanitizeEmailData e = .error .subjectRequired)
    ∧ (∀ e : Email, (truthyO e.«to» || truthyO e.cc || truthyO e.bcc) = true →
        truthyO e.from_ = true → truthyO e.subject = true →
        e.body = some (.str "") →
        validateAndSanitizeEmailData e = .error .bodyRequired)
    ∧ (∀ s : SMS, s.message = some (.str "") →
        validateAndSanitizeSMSData s = .error .messageRequired) := by
  refine ⟨?_, ?_, ?_, ?_⟩
  · intro e hdest hfrom
    unfold validateAndSanitizeEmailData
    rw [hdest, hfrom]
    simp [truthyO, truthy]
  · intro e hdest hfrom hsubj
    unfold validateAndSanitizeEmailData
    rw [hdest, hfrom, hsubj]
    simp [truthyO, truthy]
  · intro e hdest hfrom hsubj hbody
    unfold validateAndSanitizeEmailData
    rw [hdest, hfrom, hsubj, hbody]
    simp [truthyO, truthy]
  · intro s hmsg
    unfold validateAndSanitizeSMSData
    rw [hmsg]
    simp [truthyO, truthy]

/-- Witness for C10: an email with a recipient but empty `from`, and an SMS
with an empty message. -/
theorem emptyString_counts_as_absent_witness :
    validateAndSanitizeEmailData
        { «to» := some (.str "x@y"), from_ := some (.str "") }
      = .error .fromRequired
    ∧ validateAndSanitizeSMSData { message := some (.str "") }
      = .error .messageRequired :=
  ⟨emptyString_counts_as_absent.1
      { «to» := some (.str "x@y"), from_ := some (.str "") } (by decide) rfl,
    emptyString_counts_as_absent.2.2.2 { message := some (.str "") } rfl⟩

/-- The body of an email when it is a plain string. -/
def emailBodyString (e : Email) : Option String :=
  match e.body with
  | some (.str s) => some s
  | _ => none

/-- An email payload that is already sanitized in the claim's sense: its
recipient field is an array of strings and its body `a&amp;b` is the
HTML-entity-escaped form of `a&b`. -/
def escapedEmail : Email :=
  { «to» := some (.arr [.str "x@y"]), from_ := some (.str "f"),
    subject := some (.str "s"), body := some (.str "a&amp;b") }

/-- C7 counterexample: applying `validateAndSanitizeEmailData` to the
already-escaped payload `escapedEmail` re-escapes the ampersand of its body
`a&amp;b`, producing `a&amp;amp;b`, so the result is not equal to the
input: the escaping transform is not idempotent on its own output. -/
theorem validateAndSanitizeEmailData_not_idempotent :
    emailBodyString escapedEmail = some "a&amp;b"
    ∧ (validateAndSanitizeEmailData escapedEmail).map emailBodyString
        = .ok (some "a&amp;amp;b")
    ∧ validateAndSanitizeEmailData escapedEmail ≠ .ok escapedEmail := by
  refine ⟨rfl, rfl, fun h => ?_⟩
  have hb := congrArg (Except.map emailBodyString) h
  rw [show (validateAndSanitizeEmailData escapedEmail).map emailBodyString
        = .ok (some "a&amp;amp;b") from rfl] at hb
  rw [show Except.map emailBodyString (.ok escapedEmail)
        = (.ok (some "a&amp;b") : Except EmailErr (Option String)) from rfl] at hb
  injection hb with hb1
  injection hb1 with hb2
  exact absurd hb2 (by decide)

/-- Mapping the escape transform over the entries of a body whose values are
already fixed points is the identity. -/
theorem map_encodeString_fixed (fs : List (String × JSValue))
    (h : ∀ p ∈ fs, encodeString p.2 = p.2) :
    fs.map (fun p => (p.1, encodeString p.2)) = fs := by
  induction fs with
  | nil => rfl
  | cons a t ih =>
    have ha := h a (List.mem_cons_self a t)
    have ht : ∀ p ∈ t, encodeString p.2 = p.2 :=
      fun p hp => h p (List.mem_cons_of_mem a hp)
    simp [ha, ih ht]

/-- The `arrayStrings` step is the identity on absent fields and on arrays
of strings. -/
theorem coerceRecipient_arr_id (f : String) (v : Option JSValue)
    (h : v = none ∨ ∃ l, v = some (.arr l) ∧ l.all isString = true) :
    coerceRecipient f v = .ok v := by
  rcases h with h | ⟨l, h, hl⟩
  · subst h; rfl
  · subst h
    simp [coerceRecipient, truthy, isString, isArrayOfStrings, hl]

/-- C7 amended: sanitization is a no-op on payloads whose recipient fields
are already arrays of strings (with at least one destination present), whose
`from` and `subject` are nonempty strings, and whose body strings are fixed
points of the HTML-entity escape — escaping is not idempotent in general, so
"already escaped" must mean "escaping changes nothing" for the claim to
hold. -/
theorem validateAndSanitizeEmailData_idempotent_on_escaped (e : Email)
    (hto : e.«to» = none ∨ ∃ l, e.«to» = some (.arr l) ∧ l.all isString = true)
    (hcc : e.cc = none ∨ ∃ l, e.cc = some (.arr l) ∧ l.all isString = true)
    (hbcc : e.bcc = none ∨ ∃ l, e.bcc = some (.arr l) ∧ l.all isString = true)
    (hreply : e.replyTo = none ∨ ∃ l, e.replyTo = some (.arr l) ∧ l.all isString = true)
    (hdest : (truthyO e.«to» || truthyO e.cc || truthyO e.bcc) = true)
    (hfrom : ∃ s, e.from_ = some (.str s) ∧ s ≠ "")
    (hsubj : ∃ s, e.subject = some (.str s) ∧ s ≠ "")
    (hbody :
      (truthyO e.template = false
        ∧ (e.template = none ∨ ∃ ts, e.template = some (.str ts))
        ∧ ∃ s, e.body = some (.str s) ∧ s ≠ "" ∧ encode s = s)
      ∨ ((∃ ts, e.template = some (.str ts) ∧ ts ≠ "")
        ∧ ∃ fs, e.body = some (.obj fs) ∧ ∀ p ∈ fs, encodeString p.2 = p.2)) :
    validateAndSanitizeEmailData e = .ok e := by
  obtain ⟨sf, hf, hf0⟩ := hfrom
  obtain ⟨ss, hs, hs0⟩ := hsubj
  have hcto := coerceRecipient_arr_id "to" _ hto
  have hccc := coerceRecipient_arr_id "cc" _ hcc
  have hcbcc := coerceRecipient_arr_id "bcc" _ hbcc
  have hcr := coerceRecipient_arr_id "replyTo" _ hreply
  have htf : truthyO e.from_ = true := by
    rw [hf]; simp [truthyO, truthy, bne_iff_ne, hf0]
  have htsu : truthyO e.subject = true := by
    rw [hs]; simp [truthyO, truthy, bne_iff_ne, hs0]
  have hsf : isStringO e.from_ = true := by rw [hf]; rfl
  have hss : isStringO e.subject = true := by rw [hs]; rfl
  rcases hbody with ⟨htem0, htshape, sb, hb, hb0, hfix⟩ |
      ⟨⟨ts, htm, hts0⟩, fs, hb, hfix⟩
  · have htb : truthyO e.body = true := by
      rw [hb]; simp [truthyO, truthy, bne_iff_ne, hb0]
    have hstrb : isStringO e.body = true := by rw [hb]; rfl
    have hsb : sanitizeBody e.body = e.body := by
      rw [hb]
      simp [sanitizeBody, isObject, isString, encodeString, hfix]
    unfold validateAndSanitizeEmailData
    rw [hdest, htf, htsu, htb, htem0, hstrb, hsf, hss]
    simp only [Bool.not_true, Bool.not_false, Bool.false_and, Bool.true_and,
      Bool.and_false, Bool.and_true, Bool.false_eq_true, if_false, if_true,
      Bool.true_eq_false]
    rw [hcto, hccc, hcbcc, hcr, hsb]
  · have htb : truthyO e.body = true := by rw [hb]; rfl
    have hobj : isObjectO e.body = true := by rw [hb]; rfl
    have hstrb : isStringO e.body = false := by rw [hb]; rfl
    have htemT : truthyO e.template = true := by
      rw [htm]; simp [truthyO, truthy, bne_iff_ne, hts0]
    have hstem : isStringO e.template = true := by rw [htm]; rfl
    have hsb : sanitizeBody e.body = e.body := by
      rw [hb]
      simp [sanitizeBody, isObject, jsEntries, map_encodeString_fixed fs hfix]
    unfold validateAndSanitizeEmailData
    rw [hdest, htf, htsu, htb, htemT, hobj, hstrb, hstem, hsf, hss]
    simp only [Bool.not_true, Bool.not_false, Bool.false_and, Bool.true_and,
      Bool.and_false, Bool.and_true, Bool.false_eq_true, if_false, if_true,
      Bool.true_eq_false]
    rw [hcto, hccc, hcbcc, hcr, hsb]

/-- A clean text email: recipients in array form and a body without
escapable characters. -/
def cleanEmail : Email :=
  { «to» := some (.arr [.str "a@b"]), from_ := some (.str "f"),
    subject := some (.str "s"), body := some (.str "hello") }

/-- Witness for C7 amended: a clean text email is returned unchanged. -/
theorem validateAndSanitizeEmailData_idempotent_witness :
    validateAndSanitizeEmailData cleanEmail = .ok cleanEmail :=
  validateAndSanitizeEmailData_idempotent_on_escaped _
    (Or.inr ⟨[.str "a@b"], rfl, by decide⟩) (Or.inl rfl) (Or.inl rfl) (Or.inl rfl)
    (by decide) ⟨"f", rfl, by decide⟩ ⟨"s", rfl, by decide⟩
    (Or.inl ⟨rfl, Or.inl rfl, "hello", rfl, by decide, by decide⟩)

/-- Witness for C3 at a concrete parser and time. -/
theorem cronBuilder_day16_hour22_witness :
    (cronBuilder (fun _ => none) 0 { day := some "16", hour := some "22" } 120).map
      (fun o => o.expression) = .ok "cron(0 22 16 * ? *)" :=
  cronBuilder_day16_hour22 (fun _ => none) 0
